import Mathlib

/-!
Verification of the document question-answering pipeline
(`src/config.py`, `src/document_loader.py`, `src/vectorstore.py`,
`src/retrieval_chain.py`, `app.py`) against its specification.

The repository is orchestration code over external libraries (PDF loading,
text splitting, the Chroma vector index, the Ollama LLM client).  The
repository code itself is embedded directly; the external collaborators are
modelled from the specification where the claims depend on their behavior,
each such definition carrying a doc comment starting with
`Modelled from the spec:`.

Conventions of the embedding:
* Python exceptions are `Except PyError` (or `Except String` where only the
  message `str(e)` matters, as in the front end catch-all).
* Python dict metadata of a langchain `Document` is a record with `Option`
  fields (`metadata.get(key, default)` becomes `Option.getD`).
* Similarity scores and generation temperatures are rationals.
* `not question.strip()` (empty after stripping whitespace) is embedded as
  `isBlank`: every character of the string is whitespace.
-/

namespace DocQA

/-- Source `src/config.py`: `CHUNK_SIZE = 1000`. -/
def CHUNK_SIZE : Nat := 1000

/-- Source `src/config.py`: `CHUNK_OVERLAP = 200`. -/
def CHUNK_OVERLAP : Nat := 200

/-- Source `src/config.py`: `TOP_K_RESULTS = 4`. -/
def TOP_K_RESULTS : Nat := 4

/-- Source `src/config.py`: `SIMILARITY_THRESHOLD = 0.5`. -/
def SIMILARITY_THRESHOLD : ℚ := 1/2

/-- Source `src/config.py`: `COLLECTION_NAME`. -/
def COLLECTION_NAME : String := "document_qa_collection"

/-- Source `src/config.py`: `OLLAMA_MODEL = "llama3.2"`. -/
def OLLAMA_MODEL : String := "llama3.2"

/-- Source `src/config.py`: `OLLAMA_BASE_URL`. -/
def OLLAMA_BASE_URL : String := "http://localhost:11434"

/-- Source `src/config.py`: `EMBEDDING_MODEL`. -/
def EMBEDDING_MODEL : String := "all-MiniLM-L6-v2"

/-- Source `src/config.py`: `TEMPERATURE = 0.2`. -/
def TEMPERATURE : ℚ := 1/5

/-- Source `src/config.py`: `MAX_TOKENS = 512`. -/
def MAX_TOKENS : Nat := 512

/-- Source `src/config.py`: `PROMPT_TEMPLATE`. -/
def PROMPT_TEMPLATE : String :=
  "You are a helpful AI assistant. Use the following pieces of context to answer the question at the end.\n\nIf you don\x27t know the answer based on the context, just say \x22I don\x27t have enough information in the provided documents to answer this question.\x22 Don\x27t try to make up an answer.\n\nContext:\n{context}\n\nQuestion: {question}\n\nHelpful Answer:"

/-- A Python exception, as far as the pipeline distinguishes them: the
repository only ever raises `ValueError(msg)`. -/
inductive PyError where
  | valueError (msg : String)
deriving DecidableEq

/-- Metadata dict of a langchain `Document` as this pipeline uses it:
`source` and `page` are set by the PDF loader, `chunk_id` by
`DocumentProcessor.chunk_documents`.  A missing key is `none`. -/
structure Metadata where
  source : Option String
  page : Option Nat
  chunk_id : Option Nat
deriving DecidableEq

/-- A langchain `Document`: `page_content` plus `metadata`. -/
structure Document where
  page_content : String
  metadata : Metadata
deriving DecidableEq

/-- Embedding of Python `not s.strip()`: true iff every character of the
string is whitespace (equivalently, stripping leaves the empty string). -/
def isBlank (s : String) : Bool :=
  s.data.all Char.isWhitespace

/-! ## `src/retrieval_chain.py`: `RAGChain.format_sources` -/

/-- Rendering of the `page` metadata entry in `format_sources`:
`doc.metadata.get('page', 'N/A')` interpolated into the f-string. -/
def pageStr (page : Option Nat) : String :=
  match page with
  | some p => toString p
  | none => "N/A"

/-- One entry of the numbered source list built by `format_sources`
(`enumerate(context, 1)` supplies `i`): the two concatenated f-strings
appended to `sources` in the loop body. -/
def formatEntry (i : Nat) (doc : Document) : String :=
  "[" ++ toString i ++ "] File: " ++ doc.metadata.source.getD "Unknown"
    ++ " | Page: " ++ pageStr doc.metadata.page
    ++ "\n    Content: " ++ doc.page_content.take 150 ++ "...\n"

/-- Embedding of Python `sep.join(strs)`. -/
def joinWith (sep : String) : List String → String
  | [] => ""
  | [s] => s
  | s :: rest => s ++ sep ++ joinWith sep rest

/-- Source `src/retrieval_chain.py` lines 81-105, `RAGChain.format_sources`:
returns `"No sources found."` on an empty context, otherwise the
newline-join of the numbered entries. -/
def format_sources (context : List Document) : String :=
  if context.isEmpty then "No sources found."
  else joinWith "\n" (context.enum.map fun p => formatEntry (p.1 + 1) p.2)

/-! ## `app.py`: `answer_question` -/

/-- The dict returned by `RAGChain.query`:
`{"answer": ..., "context": ..., "question": ...}`. -/
structure QueryResult where
  answer : String
  context : List Document
  question : String
deriving DecidableEq

/-- Source `app.py` lines 22-51, `answer_question`.  The two calls that can raise
inside the `try` block — `rag_chain.query` and `rag_chain.format_sources` —
are passed in as fallible functions (`Except String`, carrying `str(e)`);
the structure of the guard, the `show_sources` branch and the catch-all
`except` mirrors the source line by line. -/
def answer_question (rag_query : String → Except String QueryResult)
    (fmt : List Document → Except String String)
    (question : String) (show_sources : Bool) : String × String :=
  if isBlank question then ("Please enter a question.", "")
  else
    match rag_query question with
    | .error e => ("Error: " ++ e, "")
    | .ok result =>
      if show_sources then
        match fmt result.context with
        | .error e => ("Error: " ++ e, "")
        | .ok sources => (result.answer, sources)
      else (result.answer, "Sources hidden (enable \x27Show Sources\x27 to view)")

/-! ## `src/vectorstore.py`: `VectorStoreManager` -/

/-- Modelled from the spec: the external Chroma vector index, which is not
part of this repository.  Per the spec, retrieval returns passages "ordered
by descending similarity", so the index is modelled by the full
similarity-ordered, scored ranking it assigns to each query string; the
tuple layout of index entries and the distance computation are out of
scope. -/
structure ChromaStore where
  ranking : String → List (Document × ℚ)

/-- The `search_kwargs` dict handed to `Chroma.as_retriever` in
`get_retriever`: the source passes `{"k": k}` and no score-threshold key,
so `score_threshold` is `none` there. -/
structure SearchKwargs where
  k : Nat
  score_threshold : Option ℚ

/-- The retriever object returned by `Chroma.as_retriever(search_type,
search_kwargs)`. -/
structure Retriever where
  store : ChromaStore
  search_type : String
  search_kwargs : SearchKwargs

/-- Modelled from the spec: executing a retriever search against the
external index.  The top-k passages by descending similarity are returned;
a score threshold, when one is configured in the search kwargs, filters
out passages scoring below it before the top-k cut. -/
def executeSearch (store : ChromaStore) (kwargs : SearchKwargs)
    (query : String) : List Document :=
  let ranked := store.ranking query
  let filtered :=
    match kwargs.score_threshold with
    | none => ranked
    | some t => ranked.filter fun p => t ≤ p.2
  (filtered.take kwargs.k).map Prod.fst

/-- Invoking a retriever on a query. -/
def runRetriever (r : Retriever) (query : String) : List Document :=
  executeSearch r.store r.search_kwargs query

/-- Modelled from the spec: `Chroma.similarity_search(query, k)` of the
external index — the k most similar passages, no threshold filtering. -/
def chromaSimilaritySearch (store : ChromaStore) (query : String)
    (k : Nat) : List Document :=
  ((store.ranking query).take k).map Prod.fst

/-- Source `src/vectorstore.py`, `VectorStoreManager`: holds the embedding model
(identified by its configured name) and `self.vectorstore`, which is
`None` until `create_vectorstore` or `load_vectorstore` assigns it. -/
structure VectorStoreManager where
  embeddings : String
  vectorstore : Option ChromaStore

/-- Source `VectorStoreManager.__init__`: loads the embedding model and sets
`self.vectorstore = None`. -/
def VectorStoreManager.init : VectorStoreManager :=
  { embeddings := EMBEDDING_MODEL, vectorstore := none }

/-- Source `src/vectorstore.py` lines 88-96, `get_retriever`: raises
`ValueError` when `self.vectorstore is None`, otherwise builds a
similarity retriever with `search_kwargs={"k": k}`. -/
def get_retriever (m : VectorStoreManager) (k : Nat) :
    Except PyError Retriever :=
  match m.vectorstore with
  | none => .error (.valueError
      "Vector store not initialized. Call load_vectorstore() first.")
  | some vs => .ok
      { store := vs
        search_type := "similarity"
        search_kwargs := { k := k, score_threshold := none } }

/-- Source `src/vectorstore.py` lines 98-113, `similarity_search`: raises
`ValueError` when `self.vectorstore is None`, otherwise delegates to the
index search with the given query and k. -/
def similarity_search (m : VectorStoreManager) (query : String) (k : Nat) :
    Except PyError (List Document) :=
  match m.vectorstore with
  | none => .error (.valueError "Vector store not initialized.")
  | some vs => .ok (chromaSimilaritySearch vs query k)

/-- Source `src/vectorstore.py` lines 115-119, `delete_collection`: only when
`self.vectorstore is not None` does it issue the external deletion (the
returned flag records whether it was issued); the manager state itself is
never modified, and no exception is raised in either case. -/
def delete_collection (m : VectorStoreManager) :
    Except PyError (VectorStoreManager × Bool) :=
  match m.vectorstore with
  | none => .ok (m, false)
  | some _ => .ok (m, true)

/-! ## `src/retrieval_chain.py`: `RAGChain` -/

/-- The `OllamaLLM` client object as configured by `RAGChain.__init__`:
the source passes `model`, `base_url` and `temperature` and nothing else,
so the maximum generation length `num_predict` keeps the client default,
which is no pipeline-imposed limit (`none`). -/
structure OllamaLLM where
  model : String
  base_url : String
  temperature : ℚ
  num_predict : Option Nat

/-- A generation request as sent to the Ollama backend: model identifier,
filled prompt, and the generation parameters the chain configured. -/
structure GenRequest where
  model : String
  prompt : String
  temperature : ℚ
  num_predict : Option Nat

/-- Source `src/retrieval_chain.py`, `RAGChain`: the vector store manager, the
configured LLM client, the prompt template, and the retriever built by
`_build_chain` via `get_retriever()`. -/
structure RAGChain where
  vectorstore_manager : VectorStoreManager
  llm : OllamaLLM
  prompt : String
  retriever : Retriever

/-- Source `src/retrieval_chain.py` lines 21-44, `RAGChain.__init__` together
with `_build_chain`: configures `OllamaLLM(model=OLLAMA_MODEL,
base_url=OLLAMA_BASE_URL, temperature=TEMPERATURE)` — `MAX_TOKENS` is not
passed — loads the prompt template, and obtains the retriever from
`vectorstore_manager.get_retriever()` (which may raise; its k defaults to
`TOP_K_RESULTS`). -/
def RAGChain.init (vm : VectorStoreManager) : Except PyError RAGChain :=
  (get_retriever vm TOP_K_RESULTS).map fun r =>
    { vectorstore_manager := vm
      llm :=
        { model := OLLAMA_MODEL
          base_url := OLLAMA_BASE_URL
          temperature := TEMPERATURE
          num_predict := none }
      prompt := PROMPT_TEMPLATE
      retriever := r }

/-- Substitution of `{context}` and `{question}` into the prompt
template. -/
def fillPrompt (template context question : String) : String :=
  (template.replace "{context}" context).replace "{question}" question

/-- Modelled from the spec: the stuffed-documents context block — the
retrieved passages\x27 text concatenated in the order returned (the
external chain joins them with blank lines). -/
def contextBlock (docs : List Document) : String :=
  joinWith "\n\n" (docs.map fun d => d.page_content)

/-- The generation request `RAGChain.query` sends to the language-model
backend for a question: the retriever is invoked on the question, the
context block and question are substituted into the template, and the
filled prompt is sent with the parameters configured on `self.llm`. -/
def RAGChain.sentRequest (rc : RAGChain) (question : String) : GenRequest :=
  let context := runRetriever rc.retriever question
  { model := rc.llm.model
    prompt := fillPrompt rc.prompt (contextBlock context) question
    temperature := rc.llm.temperature
    num_predict := rc.llm.num_predict }

/-- Source `src/retrieval_chain.py` lines 64-79, `RAGChain.query`: invokes the
chain on the question and returns the answer, the retrieved context and
the question.  The backend generation itself is external and passed in as
`gen`. -/
def RAGChain.query (rc : RAGChain) (gen : GenRequest → String)
    (question : String) : QueryResult :=
  { answer := gen (rc.sentRequest question)
    context := runRetriever rc.retriever question
    question := question }

/-! ## `src/document_loader.py`: `DocumentProcessor` -/

/-- Modelled from the spec: a PDF file as seen through the external PDF
loader — its file name and the text extracted from each of its pages. -/
structure PDFFile where
  name : String
  pages : List String

/-- A documents directory: its path and the PDF files found under it by
the recursive glob on the `.pdf` extension. -/
structure Directory where
  path : String
  pdfs : List PDFFile

/-- Modelled from the spec: `load_all_pdfs` (`src/document_loader.py`
lines 40-61) delegates to the external directory/PDF loaders, which per
the spec yield one document per extracted page, "tagging each page\x27s
text with its source file name and 1-based page number". -/
def load_all_pdfs (dir : Directory) : List Document :=
  dir.pdfs.flatMap fun f =>
    f.pages.enum.map fun p =>
      { page_content := p.2
        metadata :=
          { source := some f.name, page := some (p.1 + 1), chunk_id := none } }

/-- Modelled from the spec: the final, character-boundary level of the
recursive splitter — pieces of at most `CHUNK_SIZE` characters, each
subsequent piece starting `CHUNK_SIZE - CHUNK_OVERLAP` characters after
the previous one, so consecutive pieces overlap by `CHUNK_OVERLAP`. -/
def chopList (cs : List Char) : List (List Char) :=
  if h : cs.length ≤ CHUNK_SIZE then [cs]
  else cs.take CHUNK_SIZE :: chopList (cs.drop (CHUNK_SIZE - CHUNK_OVERLAP))
termination_by cs.length
decreasing_by
  simp only [List.length_drop, CHUNK_SIZE, CHUNK_OVERLAP] at *
  omega

/-- Character-boundary chopping lifted to strings. -/
def chopChars (text : String) : List String :=
  (chopList text.data).map fun cs => ⟨cs⟩

/-- Modelled from the spec: greedy merging of consecutive split pieces —
the accumulated chunk grows while rejoining the next piece (with the
separator it was split on) stays within `CHUNK_SIZE`; when it would
overflow, the chunk is emitted and the next chunk keeps its trailing
`CHUNK_OVERLAP` characters, so consecutive chunks overlap. -/
def mergeGo (sep : String) : List String → String → List String
  | [], cur => [cur]
  | p :: ps, cur =>
    if cur.length + sep.length + p.length ≤ CHUNK_SIZE then
      mergeGo sep ps (cur ++ sep ++ p)
    else
      cur :: mergeGo sep ps (cur.drop (cur.length - CHUNK_OVERLAP) ++ sep ++ p)

/-- Merging a whole piece list (empty in, empty out). -/
def mergeSplits (sep : String) : List String → List String
  | [] => []
  | p :: ps => mergeGo sep ps p

/-- The separator list configured on the splitter in
`DocumentProcessor.__init__`: paragraph breaks, then line breaks, then
spaces, then arbitrary character boundaries. -/
def SEPARATORS : List String := ["\n\n", "\n", " ", ""]

/-- Modelled from the spec: the external recursive character text
splitter.  Text within `CHUNK_SIZE` stays one piece; otherwise the
coarsest separator occurring in the text splits it, pieces still too long
are split further with the finer separators, and the results are greedily
merged back up to `CHUNK_SIZE` with overlap; the empty separator
(arbitrary character boundaries) chops the text directly. -/
def splitText : List String → String → List String
  | [], text => chopChars text
  | sep :: rest, text =>
    if text.length ≤ CHUNK_SIZE then [text]
    else if sep = "" then chopChars text
    else if (text.splitOn sep).length ≤ 1 then splitText rest text
    else
      mergeSplits sep (((text.splitOn sep).map fun p =>
        if p.length ≤ CHUNK_SIZE then [p] else splitText rest p).flatten)

/-- Splitting one loaded document: each chunk inherits the page metadata
of the text it was cut from (`split_documents`). -/
def splitDocument (d : Document) : List Document :=
  (splitText SEPARATORS d.page_content).map fun c =>
    { page_content := c, metadata := d.metadata }

/-- Source `src/document_loader.py` lines 63-79, `chunk_documents`: split all
documents, then assign each chunk a running `chunk_id` unique within the
run. -/
def chunk_documents (docs : List Document) : List Document :=
  ((docs.flatMap splitDocument).enum).map fun p =>
    { p.2 with metadata := { p.2.metadata with chunk_id := some p.1 } }

/-- Source `src/document_loader.py` lines 82-113, `process_documents`: loads all
pages, raises `ValueError("No PDF files found in ...")` when no documents
were loaded, otherwise returns the chunked documents. -/
def process_documents (dir : Directory) : Except PyError (List Document) :=
  let documents := load_all_pdfs dir
  if documents.isEmpty then
    .error (.valueError ("No PDF files found in " ++ dir.path))
  else .ok (chunk_documents documents)

/-! ## Helper lemmas -/

/-- Each string of a list occurs in the join as a contiguous substring. -/
theorem data_infix_joinWith {s : String} (sep : String) {l : List String}
    (h : s ∈ l) : s.data <:+: (joinWith sep l).data := by
  induction l with
  | nil => cases h
  | cons a rest ih =>
    cases rest with
    | nil =>
      rw [List.mem_singleton] at h
      subst h
      exact List.infix_rfl
    | cons b rest2 =>
      rcases List.mem_cons.mp h with h1 | h2
      · subst h1
        refine ⟨[], (sep ++ joinWith sep (b :: rest2)).data, ?_⟩
        simp [joinWith, String.data_append, List.append_assoc]
      · refine (ih h2).trans ⟨(a ++ sep).data, [], ?_⟩
        simp [joinWith, String.data_append, List.append_assoc]

/-- The character-level chop always yields at least one piece. -/
theorem chopList_ne_nil (cs : List Char) : chopList cs ≠ [] := by
  rw [chopList]
  split <;> simp

/-- Chopping a string always yields at least one piece. -/
theorem chopChars_ne_nil (t : String) : chopChars t ≠ [] := by
  simp only [chopChars, ne_eq, List.map_eq_nil_iff]
  exact chopList_ne_nil t.data

/-- Greedy merging always emits at least the accumulated chunk. -/
theorem mergeGo_ne_nil (sep : String) (ps : List String) (cur : String) :
    mergeGo sep ps cur ≠ [] := by
  induction ps generalizing cur with
  | nil => simp [mergeGo]
  | cons p ps ih =>
    rw [mergeGo]
    split
    · exact ih _
    · simp

/-- Merging a non-empty piece list yields a non-empty chunk list. -/
theorem mergeSplits_ne_nil (sep : String) {l : List String} (h : l ≠ []) :
    mergeSplits sep l ≠ [] := by
  cases l with
  | nil => exact absurd rfl h
  | cons p ps => exact mergeGo_ne_nil sep ps p

/-- The splitter never discards a document entirely: every text yields at
least one chunk. -/
theorem splitText_ne_nil (seps : List String) (text : String) :
    splitText seps text ≠ [] := by
  induction seps generalizing text with
  | nil => exact chopChars_ne_nil text
  | cons sep rest ih =>
    rw [splitText]
    split
    · simp
    · split
      · exact chopChars_ne_nil text
      · split
        · exact ih text
        · rename_i hlen
          apply mergeSplits_ne_nil
          cases hp : text.splitOn sep with
          | nil => rw [hp] at hlen; simp at hlen
          | cons p ps =>
            simp only [List.map_cons, List.flatten_cons]
            intro hc
            rcases List.append_eq_nil.mp hc with ⟨h1, -⟩
            by_cases hps : p.length ≤ CHUNK_SIZE
            · simp [hps] at h1
            · rw [if_neg hps] at h1
              exact ih p h1

/-- Text no longer than `CHUNK_SIZE` is returned as a single chunk. -/
theorem splitText_short (sep : String) (rest : List String) {text : String}
    (h : text.length ≤ CHUNK_SIZE) :
    splitText (sep :: rest) text = [text] := by
  rw [splitText, if_pos h]

/-- A flat map is non-empty as soon as one element contributes. -/
theorem flatMap_ne_nil {α β : Type} {l : List α} {f : α → List β} {a : α}
    (ha : a ∈ l) (hf : f a ≠ []) : l.flatMap f ≠ [] := by
  intro hc
  induction l with
  | nil => cases ha
  | cons x xs ih =>
    rw [List.flatMap_cons] at hc
    rcases List.append_eq_nil.mp hc with ⟨h1, h2⟩
    rcases List.mem_cons.mp ha with h3 | h3
    · exact hf (h3 ▸ h1)
    · exact ih h3 h2

/-- Chunking a non-empty document list yields a non-empty chunk list. -/
theorem chunk_documents_ne_nil {docs : List Document} (h : docs ≠ []) :
    chunk_documents docs ≠ [] := by
  cases docs with
  | nil => exact absurd rfl h
  | cons d ds =>
    have h1 : splitDocument d ≠ [] := by
      simp only [splitDocument, ne_eq, List.map_eq_nil_iff]
      exact splitText_ne_nil SEPARATORS d.page_content
    have h2 : (d :: ds).flatMap splitDocument ≠ [] :=
      flatMap_ne_nil (List.mem_cons_self d ds) h1
    simp only [chunk_documents, ne_eq, List.map_eq_nil_iff, List.enum_eq_nil]
    exact h2

/-! ## Concrete fixtures used by witnesses -/

/-- A concrete retrieved passage. -/
def demoDoc : Document :=
  { page_content := "The sky is blue."
    metadata := { source := some "sky.pdf", page := some 1, chunk_id := some 0 } }

/-- A second concrete passage with absent metadata keys. -/
def demoDoc2 : Document :=
  { page_content := "Second passage."
    metadata := { source := none, page := none, chunk_id := some 1 } }

/-- A concrete query result. -/
def demoResult : QueryResult :=
  { answer := "Blue.", context := [demoDoc], question := "Q" }

/-- A query backend that always raises. -/
def wRagError : String → Except String QueryResult := fun _ => .error "boom"

/-- A query backend that always succeeds with `demoResult`. -/
def wRagOk : String → Except String QueryResult := fun _ => .ok demoResult

/-- A source formatter that never raises. -/
def wFmt : List Document → Except String String :=
  fun ctx => .ok (format_sources ctx)

/-- A source formatter that always raises. -/
def wFmtBoom : List Document → Except String String := fun _ => .error "fmtboom"

/-- A concrete index ranking one passage with similarity score 0. -/
def demoStore : ChromaStore := ⟨fun _ => [(demoDoc, 0)]⟩

/-- A manager attached to `demoStore`. -/
def demoVM : VectorStoreManager :=
  { embeddings := EMBEDDING_MODEL, vectorstore := some demoStore }

/-- A directory with no PDF files. -/
def emptyDir : Directory := { path := "data/documents", pdfs := [] }

/-- A directory with a single one-page PDF. -/
def demoDir : Directory :=
  { path := "data/documents"
    pdfs := [{ name := "sky.pdf", pages := ["The sky is blue."] }] }

/-! ## Claims -/

/-- C1: for every non-blank question, if `rag_chain.query` raises with
message `e`, or it succeeds and `format_sources` raises with message `e`
while sources are shown, then `answer_question` catches the exception and
returns the pair `("Error: " ++ e, "")` instead of propagating it. -/
theorem claim_C1_query_failure_caught
    (rag_query : String → Except String QueryResult)
    (fmt : List Document → Except String String)
    (question : String) (hq : isBlank question = false)
    (show_sources : Bool) (e : String) :
    (rag_query question = .error e →
      answer_question rag_query fmt question show_sources = ("Error: " ++ e, ""))
    ∧ (∀ r, rag_query question = .ok r → show_sources = true →
        fmt r.context = .error e →
        answer_question rag_query fmt question show_sources = ("Error: " ++ e, "")) := by
  constructor
  · intro hrq
    simp [answer_question, hq, hrq]
  · intro r hrq hss hfmt
    subst hss
    simp [answer_question, hq, hrq, hfmt]

/-- Witness for C1 at concrete inputs: a raising query backend, and a
raising formatter behind a succeeding backend. -/
theorem claim_C1_witness :
    answer_question wRagError wFmt "What is this?" true = ("Error: boom", "")
    ∧ answer_question wRagOk wFmtBoom "What is this?" true = ("Error: fmtboom", "") :=
  ⟨(claim_C1_query_failure_caught wRagError wFmt "What is this?" (by decide)
      true "boom").1 rfl,
   (claim_C1_query_failure_caught wRagOk wFmtBoom "What is this?" (by decide)
      true "fmtboom").2 demoResult rfl rfl rfl⟩

/-- C2: on a freshly constructed `VectorStoreManager` (whose
`vectorstore` is `None` because neither `create_vectorstore` nor
`load_vectorstore` ran), both `get_retriever` and `similarity_search`
raise the not-initialized `ValueError` instead of returning results. -/
theorem claim_C2_uninitialized_store_fails (k : Nat) (q : String) :
    get_retriever VectorStoreManager.init k =
      .error (.valueError
        "Vector store not initialized. Call load_vectorstore() first.")
    ∧ similarity_search VectorStoreManager.init q k =
      .error (.valueError "Vector store not initialized.") :=
  ⟨rfl, rfl⟩

/-- C3: `process_documents` fails with the no-documents `ValueError` when
the directory holds no PDF files, and returns at least one chunk for
every directory holding a PDF with at least one extracted page. -/
theorem claim_C3_process_documents_behavior (dir : Directory) :
    (dir.pdfs = [] →
      process_documents dir =
        .error (.valueError ("No PDF files found in " ++ dir.path)))
    ∧ ((∃ f ∈ dir.pdfs, f.pages ≠ []) →
        ∃ chunks, process_documents dir = .ok chunks ∧ chunks ≠ []) := by
  constructor
  · intro h
    simp [process_documents, load_all_pdfs, h]
  · rintro ⟨f, hf, hpg⟩
    have hdocs : load_all_pdfs dir ≠ [] := by
      apply flatMap_ne_nil hf
      simp only [ne_eq, List.map_eq_nil_iff, List.enum_eq_nil]
      exact hpg
    refine ⟨chunk_documents (load_all_pdfs dir), ?_, chunk_documents_ne_nil hdocs⟩
    have hie : (load_all_pdfs dir).isEmpty = false := by
      rw [List.isEmpty_eq_false]
      exact hdocs
    simp [process_documents, hie]

/-- Witness for C3: the fixed empty directory fails with the error, the
fixed one-PDF directory yields a non-empty chunk list. -/
theorem claim_C3_witness :
    process_documents emptyDir =
      .error (.valueError "No PDF files found in data/documents")
    ∧ ∃ chunks, process_documents demoDir = .ok chunks ∧ chunks ≠ [] :=
  ⟨(claim_C3_process_documents_behavior emptyDir).1 rfl,
   (claim_C3_process_documents_behavior demoDir).2
     ⟨{ name := "sky.pdf", pages := ["The sky is blue."] },
      List.mem_cons_self _ _, by simp⟩⟩

/-- C4: for every question that is blank (only whitespace, including the
empty string), `answer_question` returns exactly
`("Please enter a question.", "")`; the result is the same for every
query backend and formatter, so none of them is invoked. -/
theorem claim_C4_blank_question_short_circuits
    (rag_query : String → Except String QueryResult)
    (fmt : List Document → Except String String)
    (question : String) (hq : isBlank question = true) (show_sources : Bool) :
    answer_question rag_query fmt question show_sources =
      ("Please enter a question.", "") := by
  simp [answer_question, hq]

/-- Witness for C4 at the empty string and at a whitespace string, with a
backend that would raise if it were invoked. -/
theorem claim_C4_witness :
    answer_question wRagError wFmtBoom "" true = ("Please enter a question.", "")
    ∧ answer_question wRagError wFmtBoom " \t " false =
      ("Please enter a question.", "") :=
  ⟨claim_C4_blank_question_short_circuits wRagError wFmtBoom "" (by decide) true,
   claim_C4_blank_question_short_circuits wRagError wFmtBoom " \t " (by decide) false⟩

/-- C5: `format_sources` of the empty context is exactly
`"No sources found."`, and for each position `i` of a context list the
rendered output contains, as a contiguous substring, the entry numbered
`i + 1` showing that passage\x27s source file, page number and the first
150 characters of its content. -/
theorem claim_C5_format_sources_rendering :
    format_sources [] = "No sources found."
    ∧ ∀ (ctx : List Document) (i : Nat) (h : i < ctx.length),
        ("[" ++ toString (i + 1) ++ "] File: "
          ++ (ctx.get ⟨i, h⟩).metadata.source.getD "Unknown"
          ++ " | Page: " ++ pageStr (ctx.get ⟨i, h⟩).metadata.page
          ++ "\n    Content: " ++ (ctx.get ⟨i, h⟩).page_content.take 150
          ++ "...\n").data
        <:+: (format_sources ctx).data := by
  constructor
  · rfl
  · intro ctx i h
    have hne : ctx.isEmpty = false := by
      rw [List.isEmpty_eq_false]
      intro hc
      subst hc
      exact absurd h (by simp)
    have hfs : format_sources ctx =
        joinWith "\n" (ctx.enum.map fun p => formatEntry (p.1 + 1) p.2) := by
      simp [format_sources, hne]
    have hlen : i < ctx.enum.length := by
      simpa [List.enum_length] using h
    have hmem : (i, ctx.get ⟨i, h⟩) ∈ ctx.enum := by
      have hget := List.getElem_enum ctx i hlen
      have := List.getElem_mem hlen
      rw [hget] at this
      exact this
    have hmem2 : formatEntry (i + 1) (ctx.get ⟨i, h⟩) ∈
        ctx.enum.map fun p => formatEntry (p.1 + 1) p.2 :=
      List.mem_map.mpr ⟨(i, ctx.get ⟨i, h⟩), hmem, rfl⟩
    rw [hfs]
    exact data_infix_joinWith "\n" hmem2

/-- Witness for C5: the second entry of a concrete two-passage context,
including the defaulted file name and page for missing metadata. -/
theorem claim_C5_witness :
    ("[" ++ toString (1 + 1) ++ "] File: "
      ++ (([demoDoc, demoDoc2].get ⟨1, by decide⟩)).metadata.source.getD "Unknown"
      ++ " | Page: " ++ pageStr (([demoDoc, demoDoc2].get ⟨1, by decide⟩)).metadata.page
      ++ "\n    Content: " ++ (([demoDoc, demoDoc2].get ⟨1, by decide⟩)).page_content.take 150
      ++ "...\n").data
    <:+: (format_sources [demoDoc, demoDoc2]).data :=
  claim_C5_format_sources_rendering.2 [demoDoc, demoDoc2] 1 (by decide)

/-- C6: retrieval never applies `SIMILARITY_THRESHOLD`: the retriever
built by `get_retriever` carries `search_kwargs` with only `k` and no
score threshold and returns exactly the k most similar passages, as does
`similarity_search`; in particular a retrieved passage whose score is
below the threshold is still returned. -/
theorem claim_C6_similarity_threshold_unused (m : VectorStoreManager)
    (vs : ChromaStore) (hm : m.vectorstore = some vs) (q : String) (k : Nat) :
    (∃ r, get_retriever m k = .ok r
      ∧ r.search_kwargs.k = k
      ∧ r.search_kwargs.score_threshold = none
      ∧ runRetriever r q = ((vs.ranking q).take k).map Prod.fst)
    ∧ similarity_search m q k = .ok (((vs.ranking q).take k).map Prod.fst)
    ∧ ∀ d s, (d, s) ∈ (vs.ranking q).take k → s < SIMILARITY_THRESHOLD →
        ∃ res, similarity_search m q k = .ok res ∧ d ∈ res := by
  refine ⟨?_, ?_, ?_⟩
  · refine ⟨Retriever.mk vs "similarity" (SearchKwargs.mk k none), ?_, rfl, rfl, ?_⟩
    · simp [get_retriever, hm]
    · simp [runRetriever, executeSearch]
  · simp [similarity_search, hm, chromaSimilaritySearch]
  · intro d s hmem hs
    refine ⟨((vs.ranking q).take k).map Prod.fst, ?_, ?_⟩
    · simp [similarity_search, hm, chromaSimilaritySearch]
    · exact List.mem_map_of_mem Prod.fst hmem

/-- Witness for C6: the concrete store ranks its only passage with score
0, strictly below the configured threshold 1/2, yet the passage is
returned. -/
theorem claim_C6_witness :
    ∃ res, similarity_search demoVM "What color is the sky?" 4 = .ok res
      ∧ demoDoc ∈ res :=
  (claim_C6_similarity_threshold_unused demoVM demoStore rfl
      "What color is the sky?" 4).2.2 demoDoc 0
    (by simp [demoStore]) (by norm_num [SIMILARITY_THRESHOLD])

/-- C7 as stated is false: the counterexample below exhibits a chain built
by `RAGChain.__init__` whose generation request carries the configured
temperature but no maximum output length, because `MAX_TOKENS` is never
passed to the `OllamaLLM` client. -/
theorem claim_C7_counterexample :
    ∃ rc, RAGChain.init demoVM = .ok rc
      ∧ ¬ ((rc.sentRequest "What color is the sky?").temperature = TEMPERATURE
          ∧ (rc.sentRequest "What color is the sky?").num_predict =
              some MAX_TOKENS) := by
  refine ⟨_, rfl, ?_⟩
  rintro ⟨-, h⟩
  simp [RAGChain.sentRequest] at h

/-- C7 amended: every call to `RAGChain.query` sends the filled prompt
with the fixed generation temperature `TEMPERATURE`, but with no maximum
output length — `MAX_TOKENS` is defined in the configuration and never
applied, so `num_predict` stays at the client default `none`. -/
theorem claim_C7_request_parameters (vm : VectorStoreManager) (rc : RAGChain)
    (hrc : RAGChain.init vm = .ok rc) (gen : GenRequest → String)
    (question : String) :
    (rc.sentRequest question).temperature = TEMPERATURE
    ∧ (rc.sentRequest question).num_predict = none
    ∧ (RAGChain.query rc gen question).answer = gen (rc.sentRequest question) := by
  cases hg : get_retriever vm TOP_K_RESULTS with
  | error e =>
    rw [RAGChain.init, hg] at hrc
    simp [Except.map] at hrc
  | ok r =>
    rw [RAGChain.init, hg] at hrc
    simp only [Except.map] at hrc
    cases hrc
    exact ⟨rfl, rfl, rfl⟩

/-- Witness for C7 (amended) at a concrete initialized manager. -/
theorem claim_C7_witness :
    ∃ rc, RAGChain.init demoVM = .ok rc
      ∧ (rc.sentRequest "Q").temperature = TEMPERATURE
      ∧ (rc.sentRequest "Q").num_predict = none :=
  ⟨_, rfl, (claim_C7_request_parameters demoVM _ rfl (fun _ => "") "Q").1,
    (claim_C7_request_parameters demoVM _ rfl (fun _ => "") "Q").2.1⟩

set_option maxRecDepth 8000 in
/-- C8: every loaded page is tagged with a 1-based page number, and a
single one-page PDF whose text fits in one chunk yields exactly one
passage with page number 1, whose rendered source line is the entry
`"[1] File: <name> | Page: 1"` with the content preview. -/
theorem claim_C8_one_based_pages :
    (∀ (dir : Directory) (d : Document), d ∈ load_all_pdfs dir →
        ∃ n, d.metadata.page = some (n + 1))
    ∧ ∀ (path name t : String), t.length ≤ CHUNK_SIZE →
        ∃ c : Document,
          process_documents
              { path := path, pdfs := [{ name := name, pages := [t] }] } =
            .ok [c]
          ∧ c.page_content = t
          ∧ c.metadata.page = some 1
          ∧ format_sources [c] =
              "[1] File: " ++ name ++ " | Page: 1\n    Content: "
                ++ t.take 150 ++ "...\n" := by
  constructor
  · intro dir d hd
    rw [load_all_pdfs, List.mem_flatMap] at hd
    obtain ⟨f, -, hd⟩ := hd
    rw [List.mem_map] at hd
    obtain ⟨p, -, hd⟩ := hd
    exact ⟨p.1, by rw [← hd]⟩
  · intro path name t ht
    have hload : load_all_pdfs { path := path, pdfs := [{ name := name, pages := [t] }] } =
        [{ page_content := t,
           metadata := { source := some name, page := some 1, chunk_id := none } }] := by
      simp [load_all_pdfs, List.enum]
    have hsplit : splitText SEPARATORS t = [t] := splitText_short "\n\n" _ ht
    refine ⟨Document.mk t (Metadata.mk (some name) (some 1) (some 0)),
      ?_, rfl, rfl, ?_⟩
    · rw [process_documents, hload]
      simp [chunk_documents, splitDocument, hsplit, List.enum]
    · simp only [format_sources, List.isEmpty_cons, Bool.false_eq_true, if_false,
        List.enum, List.enumFrom, List.map_cons, List.map_nil, joinWith,
        formatEntry, pageStr, Option.getD]
      apply String.ext
      simp only [String.data_append, List.append_assoc]
      rfl

set_option maxRecDepth 8000 in
/-- Witness for C8 at the spec scenario: a one-page PDF containing
"The sky is blue.". -/
theorem claim_C8_witness :
    ∃ c : Document,
      process_documents
          { path := "data/documents",
            pdfs := [{ name := "sky.pdf", pages := ["The sky is blue."] }] } =
        .ok [c]
      ∧ c.page_content = "The sky is blue."
      ∧ c.metadata.page = some 1
      ∧ format_sources [c] =
          "[1] File: sky.pdf | Page: 1\n    Content: The sky is blue....\n" := by
  have h := claim_C8_one_based_pages.2 "data/documents" "sky.pdf"
    "The sky is blue." (by decide)
  obtain ⟨c, h1, h2, h3, h4⟩ := h
  refine ⟨c, h1, h2, h3, ?_⟩
  rw [h4]
  rfl

/-- C9: `delete_collection` on a manager whose vector store was never
initialized is a silent no-op — no error, no state change, no deletion
issued — while `get_retriever` and `similarity_search` raise in that same
state. -/
theorem claim_C9_delete_collection_noop (m : VectorStoreManager)
    (hm : m.vectorstore = none) :
    delete_collection m = .ok (m, false)
    ∧ (∀ k, get_retriever m k =
        .error (.valueError
          "Vector store not initialized. Call load_vectorstore() first."))
    ∧ (∀ q k, similarity_search m q k =
        .error (.valueError "Vector store not initialized.")) := by
  refine ⟨?_, ?_, ?_⟩ <;>
    simp [delete_collection, get_retriever, similarity_search, hm]

/-- Witness for C9 at the freshly constructed manager. -/
theorem claim_C9_witness :
    delete_collection VectorStoreManager.init = .ok (VectorStoreManager.init, false)
    ∧ (∀ k, get_retriever VectorStoreManager.init k =
        .error (.valueError
          "Vector store not initialized. Call load_vectorstore() first."))
    ∧ (∀ q k, similarity_search VectorStoreManager.init q k =
        .error (.valueError "Vector store not initialized.")) :=
  claim_C9_delete_collection_noop VectorStoreManager.init rfl

/-- C10: for every non-blank question whose query succeeds, with
`show_sources = false` the second component of the result is exactly the
fixed hidden-sources string, for every formatter and every retrieved
context — `format_sources` is not invoked. -/
theorem claim_C10_sources_hidden
    (rag_query : String → Except String QueryResult)
    (fmt : List Document → Except String String)
    (question : String) (hq : isBlank question = false)
    (r : QueryResult) (hr : rag_query question = .ok r) :
    answer_question rag_query fmt question false =
      (r.answer, "Sources hidden (enable \x27Show Sources\x27 to view)") := by
  simp [answer_question, hq, hr]

/-- Witness for C10 with a formatter that would raise if it were
invoked. -/
theorem claim_C10_witness :
    answer_question wRagOk wFmtBoom "What color is the sky?" false =
      ("Blue.", "Sources hidden (enable \x27Show Sources\x27 to view)") :=
  claim_C10_sources_hidden wRagOk wFmtBoom "What color is the sky?"
    (by decide) demoResult rfl

end DocQA
